import Mathlib

/-!
Shallow embedding of `deepagents_cli/tools.py`: five stateless adapter
functions (HTTP request, web search, URL fetch, and two dependency
checkers).  External collaborators (the `requests` library, the Tavily
client, `markdownify`, `subprocess`, `json`) are modelled as explicit
"world" oracles passed to each adapter; each Python exception raised by a
collaborator becomes a constructor of the corresponding outcome type, so
the adapters are total Lean functions — totality of the embedding models
the adapters never letting an exception escape.  Subprocess and
search-client invocations are counted (the second component of the
returned pair) so that "performs no call" claims are statable.
-/

/-- JSON-compatible values, the payloads external services return. -/
inductive Json where
  | null
  | bool (b : Bool)
  | num (n : Int)
  | str (s : String)
  | arr (xs : List Json)
  | obj (kvs : List (String × Json))

/-- The `content` field of an HTTP result: `response.json()` when the body
parses as JSON, the raw text otherwise (tools.py lines 54-57). -/
inductive Content where
  | json (v : Json)
  | text (s : String)

/-- The `data` argument of `http_request`: a raw string or a dict
(`data: str | dict | None`). -/
inductive HttpData where
  | str (s : String)
  | dict (d : List (String × Json))

/-- The keyword arguments built for `requests.request(**kwargs)`
(tools.py lines 40-50).  An absent key is `none`. -/
structure RequestKwargs where
  url : String
  method : String
  timeout : Nat
  headers : Option (List (String × String))
  params : Option (List (String × String))
  json : Option (List (String × Json))
  data : Option String

/-- The arguments of `http_request` (tools.py lines 18-24). -/
structure HttpArgs where
  url : String
  method : String
  headers : Option (List (String × String))
  data : Option HttpData
  params : Option (List (String × String))
  timeout : Nat

/-- A `requests.Response`: status code, headers, body text, the result of
`response.json()` when the body is valid JSON, and the resolved URL. -/
structure HttpResponse where
  status_code : Nat
  headers : List (String × String)
  text : String
  jsonBody : Option Json
  url : String

/-- Outcome of `requests.request`: a response, or one of the exception
classes caught at tools.py lines 67, 75 and 83. -/
inductive HttpOutcome where
  | ok (r : HttpResponse)
  | timeout
  | requestError (msg : String)
  | otherError (msg : String)

/-- The dictionary `http_request` returns (tools.py lines 59-90): always
these five keys, in both the success and the failure shapes. -/
structure HttpResult where
  success : Bool
  status_code : Nat
  headers : List (String × String)
  content : Content
  url : String

/-- Python truthiness of an optional dict argument: `None` and `{}` are
falsy (`if headers:` / `if params:` at tools.py lines 42, 44). -/
def optDictTruthy {α β : Type} : Option (List (α × β)) → Bool
  | none => false
  | some l => !l.isEmpty

/-- Python truthiness of the `data` argument: `None`, `""` and `{}` are
falsy (`if data:` at tools.py line 46). -/
def dataTruthy : Option HttpData → Bool
  | none => false
  | some (.str s) => !(s == "")
  | some (.dict d) => !d.isEmpty

/-- The kwargs dict built at tools.py lines 40-50: `url`, upper-cased
`method` and `timeout` always; `headers` and `params` only when truthy; a
truthy dict `data` goes to the `json` key, a truthy string `data` to the
`data` key. -/
def buildKwargs (a : HttpArgs) : RequestKwargs where
  url := a.url
  method := a.method.toUpper
  timeout := a.timeout
  headers := if optDictTruthy a.headers then a.headers else none
  params := if optDictTruthy a.params then a.params else none
  json :=
    if dataTruthy a.data then
      match a.data with
      | some (.dict d) => some d
      | _ => none
    else none
  data :=
    if dataTruthy a.data then
      match a.data with
      | some (.str s) => some s
      | _ => none
    else none

/-- `try: content = response.json() except: content = response.text`
(tools.py lines 54-57). -/
def responseContent (r : HttpResponse) : Content :=
  match r.jsonBody with
  | some j => .json j
  | none => .text r.text

/-- Embedding of `http_request` (tools.py lines 18-90).  The world `w`
maps the built kwargs to the outcome of `requests.request`. -/
def http_request (a : HttpArgs) (w : RequestKwargs → HttpOutcome) : HttpResult :=
  match w (buildKwargs a) with
  | .ok r =>
    { success := decide (r.status_code < 400)
      status_code := r.status_code
      headers := r.headers
      content := responseContent r
      url := r.url }
  | .timeout =>
    { success := false
      status_code := 0
      headers := []
      content := .text ("Request timed out after " ++ toString a.timeout ++ " seconds")
      url := a.url }
  | .requestError e =>
    { success := false
      status_code := 0
      headers := []
      content := .text ("Request error: " ++ e)
      url := a.url }
  | .otherError e =>
    { success := false
      status_code := 0
      headers := []
      content := .text ("Error making request: " ++ e)
      url := a.url }

/-- The `topic` argument of `web_search`: `Literal["general", "news",
"finance"]` (tools.py line 96). -/
inductive Topic where
  | general
  | news
  | finance

/-- The arguments passed to `tavily_client.search` (tools.py
lines 132-137). -/
structure SearchCall where
  query : String
  max_results : Nat
  include_raw_content : Bool
  topic : Topic

/-- Outcome of `tavily_client.search`: the service payload, or an
exception (caught at tools.py line 138). -/
inductive SearchOutcome where
  | ok (payload : Json)
  | exn (msg : String)

/-- What `web_search` returns: the service payload passed through
unchanged, or the error dict `{"error": msg, "query": query}`. -/
inductive SearchResult where
  | payload (j : Json)
  | error (msg : String) (query : String)

/-- Module-level client construction (tools.py lines 14-15):
`os.environ.get` yields `none` when the variable is unset, and the
conditional expression also maps a falsy (empty) key to `None`. -/
def mkTavilyClient {α : Type} (apiKey : Option String) (mk : String → α) : Option α :=
  match apiKey with
  | none => none
  | some k => if k == "" then none else some (mk k)

/-- Embedding of `web_search` (tools.py lines 93-139).  The client, when
configured, maps a search call to its outcome; the second component
counts how many times the client was invoked. -/
def web_search (client : Option (SearchCall → SearchOutcome)) (query : String)
    (max_results : Nat) (topic : Topic) (include_raw_content : Bool) :
    SearchResult × Nat :=
  match client with
  | none =>
    (.error "TAVILY_API_KEY environment variable is not set. Web search is unavailable."
      query, 0)
  | some c =>
    match c ⟨query, max_results, include_raw_content, topic⟩ with
    | .ok j => (.payload j, 1)
    | .exn e => (.error ("Web search error: " ++ e) query, 1)

/-- The fixed headers of the fetch request (tools.py line 171). -/
def fetchHeaders : List (String × String) :=
  [("User-Agent", "Mozilla/5.0 (compatible; DeepAgents/1.0)")]

/-- Outcome of `requests.get` in `fetch_url`: a response, or an exception
raised before a response exists. -/
inductive FetchOutcome where
  | resp (r : HttpResponse)
  | exn (msg : String)

/-- The success dict of `fetch_url` (tools.py lines 178-183). -/
structure FetchOk where
  url : String
  markdown_content : String
  status_code : Nat
  content_length : Nat

/-- What `fetch_url` returns: the success dict, or the error dict
`{"error": msg, "url": url}` (tools.py line 185). -/
inductive FetchResult where
  | ok (r : FetchOk)
  | error (msg : String) (url : String)

/-- Embedding of `fetch_url` (tools.py lines 142-185).  `get` maps the
url, timeout and fixed headers to the outcome of `requests.get`;
`httpErrMsg` is the text of the `HTTPError` that
`response.raise_for_status()` raises for a 4xx/5xx status; `md` is the
`markdownify` HTML-to-markdown converter. -/
def fetch_url (get : String → Nat → List (String × String) → FetchOutcome)
    (httpErrMsg : HttpResponse → String) (md : String → String)
    (url : String) (timeout : Nat) : FetchResult :=
  match get url timeout fetchHeaders with
  | .exn e => .error ("Fetch URL error: " ++ e) url
  | .resp r =>
    if 400 ≤ r.status_code ∧ r.status_code < 600 then
      .error ("Fetch URL error: " ++ httpErrMsg r) url
    else
      let markdown_content := md r.text
      .ok
        { url := r.url
          markdown_content := markdown_content
          status_code := r.status_code
          content_length := markdown_content.length }

/-- One element of the parsed `pip list --outdated --format=json` output:
the keys read at tools.py lines 251-253. -/
structure PipPkg where
  name : String
  version : String
  latest_version : String

/-- Outcome of the `subprocess.run(["pip", ...], check=True, ...)` call:
captured stdout on exit 0, or one of the exceptions caught at tools.py
lines 263, 265 and 267. -/
inductive PipOutcome where
  | ok (stdout : String)
  | calledProcessError (stderr : String)
  | timeoutExpired
  | exn (msg : String)

/-- One dependency entry built by `check_python_dependencies`
(tools.py lines 250-254). -/
structure PyDepEntry where
  name : String
  current : String
  latest : String

/-- The success dict of `check_python_dependencies` (tools.py
lines 218-261): `source` is always a string by the time it is returned,
and `message` is present exactly when it was set at line 259. -/
structure PyReport where
  dependencies : List PyDepEntry
  outdated : List String
  upgrades : List String
  source : String
  message : Option String

/-- What `check_python_dependencies` returns: the success dict or an
error dict `{"error": msg}`. -/
inductive PyResult where
  | ok (r : PyReport)
  | error (msg : String)

/-- The world of `check_python_dependencies`: file existence
(`Path.exists`), the pip subprocess outcome, and the combined
`json.loads` + key lookups of the loop at tools.py lines 246-256 —
`Except.error` is a raised `JSONDecodeError`/`KeyError` landing in the
generic handler at line 267. -/
structure PyWorld where
  fileExists : String → Bool
  pip : PipOutcome
  parsePip : String → Except String (List PipPkg)

/-- The source-resolution order of tools.py lines 229-236. -/
def resolveSource (fileExists : String → Bool) (requirements_path : String)
    (check_pyproject : Bool) : Option String :=
  if check_pyproject && fileExists "pyproject.toml" then some "pyproject.toml"
  else if fileExists requirements_path then some requirements_path
  else none

/-- Embedding of `check_python_dependencies` (tools.py lines 188-268).
The second component counts subprocess invocations. -/
def check_python_dependencies (w : PyWorld) (requirements_path : String)
    (check_pyproject : Bool) : PyResult × Nat :=
  match resolveSource w.fileExists requirements_path check_pyproject with
  | none =>
    (.error ("No dependency file found. Checked: " ++ requirements_path ++ ", pyproject.toml"),
      0)
  | some source =>
    match w.pip with
    | .calledProcessError stderr =>
      (.error ("Failed to check dependencies: " ++ stderr), 1)
    | .timeoutExpired => (.error "Command timed out after 30 seconds", 1)
    | .exn e => (.error ("Error checking Python dependencies: " ++ e), 1)
    | .ok out =>
      match w.parsePip out with
      | .error e => (.error ("Error checking Python dependencies: " ++ e), 1)
      | .ok pkgs =>
        let outdated := pkgs.map (fun p => p.name)
        (.ok
          { dependencies :=
              pkgs.map (fun p =>
                { name := p.name, current := p.version, latest := p.latest_version })
            outdated := outdated
            upgrades :=
              pkgs.map (fun p => "pip install " ++ p.name ++ "==" ++ p.latest_version)
            source := source
            message :=
              if outdated.isEmpty then some "All dependencies are up to date!" else none },
          1)

/-- One value of the parsed `npm outdated --json` object: the keys read
with `.get` and a default at tools.py lines 328-334, so each may be
absent. -/
structure NpmPkgInfo where
  current : Option String
  wanted : Option String
  latest : Option String

/-- Outcome of the `subprocess.run(["npm", ...])` call (no `check=True`,
so a non-zero exit still yields a completed process with its stdout):
the exceptions are those caught at tools.py lines 344, 346 and 348. -/
inductive NpmOutcome where
  | ran (exitCode : Int) (stdout : String)
  | fileNotFound
  | timeoutExpired
  | exn (msg : String)

/-- Outcome of `json.loads(stdout)` plus the `.items()` iteration at
tools.py lines 323-335: a list of name-info pairs, a `JSONDecodeError`
(caught at line 336), or another exception (e.g. `AttributeError` on a
non-dict value) landing in the generic handler at line 348. -/
inductive NpmParse where
  | ok (items : List (String × NpmPkgInfo))
  | decodeError
  | exn (msg : String)

/-- One dependency entry built by `check_typescript_dependencies`
(tools.py lines 326-331). -/
structure TsDepEntry where
  name : String
  current : String
  wanted : String
  latest : String

/-- The success dict of `check_typescript_dependencies` (tools.py
lines 304-342). -/
structure TsReport where
  dependencies : List TsDepEntry
  outdated : List String
  upgrades : List String
  source : String
  message : Option String

/-- What `check_typescript_dependencies` returns: the success dict or an
error dict `{"error": msg}`. -/
inductive TsResult where
  | ok (r : TsReport)
  | error (msg : String)

/-- The world of `check_typescript_dependencies`: file existence, the npm
subprocess outcome, and the stdout parser. -/
structure NpmWorld where
  fileExists : String → Bool
  npm : NpmOutcome
  parseNpm : String → NpmParse

/-- Embedding of `check_typescript_dependencies` (tools.py
lines 271-349).  The second component counts subprocess invocations.
Note the code never inspects the exit code of a completed `npm outdated`
run — it only tests stdout for truthiness (line 321). -/
def check_typescript_dependencies (w : NpmWorld) (package_json_path : String) :
    TsResult × Nat :=
  if !w.fileExists package_json_path then
    (.error ("No package.json found at: " ++ package_json_path), 0)
  else
    match w.npm with
    | .fileNotFound => (.error "npm is not installed or not in PATH", 1)
    | .timeoutExpired => (.error "npm command timed out after 60 seconds", 1)
    | .exn e => (.error ("Error checking TypeScript dependencies: " ++ e), 1)
    | .ran _ out =>
      if out == "" then
        (.ok
          { dependencies := []
            outdated := []
            upgrades := []
            source := package_json_path
            message := some "All dependencies are up to date!" },
          1)
      else
        match w.parseNpm out with
        | .decodeError => (.error "Failed to parse npm outdated output", 1)
        | .exn e => (.error ("Error checking TypeScript dependencies: " ++ e), 1)
        | .ok items =>
          let outdated := items.map (fun x => x.1)
          (.ok
            { dependencies :=
                items.map (fun x =>
                  { name := x.1
                    current := x.2.current.getD "N/A"
                    wanted := x.2.wanted.getD "N/A"
                    latest := x.2.latest.getD "N/A" })
              outdated := outdated
              upgrades :=
                items.map (fun x => "npm install " ++ x.1 ++ "@" ++ x.2.latest.getD "latest")
              source := package_json_path
              message :=
                if outdated.isEmpty then some "All dependencies are up to date!" else none },
            1)

/-- `needle` occurs as a contiguous substring starting at some position of
`hay` (helper). -/
def strContainsAux (needle : List Char) : List Char → Bool
  | [] => needle.isEmpty
  | c :: cs => needle.isPrefixOf (c :: cs) || strContainsAux needle cs

/-- `needle` occurs as a contiguous substring of `hay` (used to state that
an error message does, or does not, mention a path). -/
def strContains (hay needle : String) : Bool :=
  strContainsAux needle.data hay.data

/-- Whether a python-checker result is error-shaped. -/
def pyIsError : PyResult → Bool
  | .error _ => true
  | .ok _ => false

/-- Whether a typescript-checker result is error-shaped. -/
def tsIsError : TsResult → Bool
  | .error _ => true
  | .ok _ => false

/-- C2: when the underlying HTTP request completes with a numeric status
code, `http_request` returns success iff the status code is strictly below
400, together with the status code, the response headers, the content
(parsed JSON when the body is valid JSON, raw text otherwise) and the
resolved URL. -/
theorem http_request_response_contract (a : HttpArgs) (w : RequestKwargs → HttpOutcome)
    (r : HttpResponse) (h : w (buildKwargs a) = .ok r) :
    http_request a w =
      { success := decide (r.status_code < 400)
        status_code := r.status_code
        headers := r.headers
        content := responseContent r
        url := r.url } ∧
    ((http_request a w).success = true ↔ r.status_code < 400) := by
  constructor
  · simp [http_request, h]
  · simp [http_request, h]

/-- Witness for C2 at a concrete 404 response. -/
theorem http_request_response_contract_witness :
    http_request ⟨"http://x", "get", none, none, none, 30⟩
        (fun _ => .ok ⟨404, [("K", "V")], "missing", none, "http://x/"⟩) =
      { success := decide (404 < 400)
        status_code := 404
        headers := [("K", "V")]
        content := responseContent ⟨404, [("K", "V")], "missing", none, "http://x/"⟩
        url := "http://x/" } ∧
    ((http_request ⟨"http://x", "get", none, none, none, 30⟩
        (fun _ => .ok ⟨404, [("K", "V")], "missing", none, "http://x/"⟩)).success = true ↔
      404 < 400) :=
  http_request_response_contract ⟨"http://x", "get", none, none, none, 30⟩
    (fun _ => .ok ⟨404, [("K", "V")], "missing", none, "http://x/"⟩)
    ⟨404, [("K", "V")], "missing", none, "http://x/"⟩ rfl

/-- C3: a timeout or any other transport-level failure makes
`http_request` return success=false, status code 0, empty headers, a
human-readable message in the content field and the original URL (the
embedding is total, so no exception escapes). -/
theorem http_request_transport_failure_contract :
    (∀ (a : HttpArgs) (w : RequestKwargs → HttpOutcome),
      w (buildKwargs a) = .timeout →
      http_request a w =
        { success := false
          status_code := 0
          headers := []
          content := .text ("Request timed out after " ++ toString a.timeout ++ " seconds")
          url := a.url }) ∧
    (∀ (a : HttpArgs) (w : RequestKwargs → HttpOutcome) (e : String),
      w (buildKwargs a) = .requestError e →
      http_request a w =
        { success := false
          status_code := 0
          headers := []
          content := .text ("Request error: " ++ e)
          url := a.url }) := by
  constructor
  · intro a w h
    simp [http_request, h]
  · intro a w e h
    simp [http_request, h]

/-- Witness for C3: a concrete request that times out. -/
theorem http_request_transport_failure_contract_witness :
    http_request ⟨"http://x", "get", none, none, none, 30⟩ (fun _ => .timeout) =
      { success := false
        status_code := 0
        headers := []
        content := .text ("Request timed out after " ++ toString 30 ++ " seconds")
        url := "http://x" } :=
  http_request_transport_failure_contract.1 ⟨"http://x", "get", none, none, none, 30⟩
    (fun _ => .timeout) rfl

/-- C4: with no search client configured, `web_search` returns the error
dict echoing the query unchanged and never invokes the client (the
invocation count is 0). -/
theorem web_search_missing_credential_contract (query : String) (max_results : Nat)
    (topic : Topic) (include_raw_content : Bool) :
    web_search none query max_results topic include_raw_content =
      (.error "TAVILY_API_KEY environment variable is not set. Web search is unavailable."
        query, 0) := rfl

/-- C9: an empty `headers` or `params` dict, an empty-string `data` body
and an empty `data` dict are all treated exactly like an absent argument —
truthiness testing drops them from the kwargs, so the call behaves
identically and in particular an empty-string body puts neither a `data`
nor a `json` key into the kwargs. -/
theorem http_request_falsy_args_treated_absent (a : HttpArgs)
    (w : RequestKwargs → HttpOutcome) :
    http_request { a with headers := some [] } w = http_request { a with headers := none } w ∧
    http_request { a with params := some [] } w = http_request { a with params := none } w ∧
    http_request { a with data := some (.str "") } w =
      http_request { a with data := none } w ∧
    http_request { a with data := some (.dict []) } w =
      http_request { a with data := none } w ∧
    (buildKwargs { a with data := some (.str "") }).data = none ∧
    (buildKwargs { a with data := some (.str "") }).json = none := by
  refine ⟨rfl, rfl, rfl, rfl, rfl, rfl⟩

/-- C8: when the GET returns a success status (below 400, so
`raise_for_status` does not raise) and conversion completes, `fetch_url`
returns the resolved URL, the converted markdown, the status code, and a
`content_length` equal to the character length of `markdown_content`. -/
theorem fetch_url_success_contract
    (get : String → Nat → List (String × String) → FetchOutcome)
    (httpErrMsg : HttpResponse → String) (md : String → String)
    (url : String) (timeout : Nat) (r : HttpResponse)
    (h : get url timeout fetchHeaders = .resp r) (hs : r.status_code < 400) :
    fetch_url get httpErrMsg md url timeout =
      .ok
        { url := r.url
          markdown_content := md r.text
          status_code := r.status_code
          content_length := (md r.text).length } ∧
    ∀ fr, fetch_url get httpErrMsg md url timeout = .ok fr →
      fr.content_length = fr.markdown_content.length := by
  have hc : ¬(400 ≤ r.status_code ∧ r.status_code < 600) := by omega
  have h1 : fetch_url get httpErrMsg md url timeout =
      .ok
        { url := r.url
          markdown_content := md r.text
          status_code := r.status_code
          content_length := (md r.text).length } := by
    simp [fetch_url, h, hc]
  refine ⟨h1, ?_⟩
  intro fr hfr
  rw [h1] at hfr
  cases hfr
  rfl

/-- Witness for C8 at a concrete 200 response. -/
theorem fetch_url_success_contract_witness :
    fetch_url (fun _ _ _ => .resp ⟨200, [], "<h1>t</h1>", none, "http://y/"⟩)
        (fun _ => "boom") (fun s => s) "http://y" 30 =
      .ok
        { url := "http://y/"
          markdown_content := "<h1>t</h1>"
          status_code := 200
          content_length := ("<h1>t</h1>" : String).length } ∧
    ∀ fr, fetch_url (fun _ _ _ => .resp ⟨200, [], "<h1>t</h1>", none, "http://y/"⟩)
        (fun _ => "boom") (fun s => s) "http://y" 30 = .ok fr →
      fr.content_length = fr.markdown_content.length :=
  fetch_url_success_contract (fun _ _ _ => .resp ⟨200, [], "<h1>t</h1>", none, "http://y/"⟩)
    (fun _ => "boom") (fun s => s) "http://y" 30
    ⟨200, [], "<h1>t</h1>", none, "http://y/"⟩ rfl (by decide)

/-- C5: the source-resolution order of `check_python_dependencies` — with
the pyproject preference set and `pyproject.toml` present any success
report records source "pyproject.toml"; otherwise with the requirements
file present any success report records the requirements path; with
neither applicable the call returns the error naming both checked paths
and performs no subprocess call. -/
theorem check_python_source_resolution_contract (w : PyWorld) (path : String)
    (flag : Bool) :
    ((flag && w.fileExists "pyproject.toml") = true →
      ∀ r, (check_python_dependencies w path flag).1 = .ok r →
        r.source = "pyproject.toml") ∧
    ((flag && w.fileExists "pyproject.toml") = false → w.fileExists path = true →
      ∀ r, (check_python_dependencies w path flag).1 = .ok r → r.source = path) ∧
    ((flag && w.fileExists "pyproject.toml") = false → w.fileExists path = false →
      check_python_dependencies w path flag =
        (.error ("No dependency file found. Checked: " ++ path ++ ", pyproject.toml"),
          0)) := by
  refine ⟨?_, ?_, ?_⟩
  · intro h r hr
    simp only [check_python_dependencies, resolveSource, h, if_true] at hr
    rcases hp : w.pip with out | stderr | _ | e <;> simp [hp] at hr
    rcases hq : w.parsePip out with e | pkgs <;> simp [hq] at hr
    subst hr
    rfl
  · intro h h2 r hr
    simp only [check_python_dependencies, resolveSource, h, h2, Bool.false_eq_true,
      if_false, if_true] at hr
    rcases hp : w.pip with out | stderr | _ | e <;> simp [hp] at hr
    rcases hq : w.parsePip out with e | pkgs <;> simp [hq] at hr
    subst hr
    rfl
  · intro h h2
    simp [check_python_dependencies, resolveSource, h, h2]

/-- Witness for C5: neither manifest exists, so the error names both paths
and the pip subprocess is never run. -/
theorem check_python_source_resolution_contract_witness :
    check_python_dependencies ⟨fun _ => false, .ok "[]", fun _ => .ok []⟩
        "requirements.txt" true =
      (.error ("No dependency file found. Checked: " ++ "requirements.txt" ++
        ", pyproject.toml"), 0) :=
  (check_python_source_resolution_contract ⟨fun _ => false, .ok "[]", fun _ => .ok []⟩
    "requirements.txt" true).2.2 rfl rfl

/-- C10: every success report of either dependency checker has
`dependencies`, `outdated` and `upgrades` of equal length, and carries the
message "All dependencies are up to date!" exactly when `outdated` is
empty. -/
theorem dep_checker_report_invariants :
    (∀ (w : PyWorld) (path : String) (flag : Bool) (r : PyReport),
      (check_python_dependencies w path flag).1 = .ok r →
      r.dependencies.length = r.outdated.length ∧
      r.upgrades.length = r.outdated.length ∧
      (r.message = some "All dependencies are up to date!" ↔ r.outdated = [])) ∧
    (∀ (w : NpmWorld) (path : String) (r : TsReport),
      (check_typescript_dependencies w path).1 = .ok r →
      r.dependencies.length = r.outdated.length ∧
      r.upgrades.length = r.outdated.length ∧
      (r.message = some "All dependencies are up to date!" ↔ r.outdated = [])) := by
  constructor
  · intro w path flag r hr
    rcases hs : resolveSource w.fileExists path flag with _ | src
    · simp [check_python_dependencies, hs] at hr
    · rcases hp : w.pip with out | stderr | _ | e
      · rcases hq : w.parsePip out with e | pkgs
        · simp [check_python_dependencies, hs, hp, hq] at hr
        · simp [check_python_dependencies, hs, hp, hq] at hr
          subst hr
          refine ⟨by simp, by simp, ?_⟩
          rcases pkgs with _ | ⟨p, ps⟩ <;> simp
      · simp [check_python_dependencies, hs, hp] at hr
      · simp [check_python_dependencies, hs, hp] at hr
      · simp [check_python_dependencies, hs, hp] at hr
  · intro w path r hr
    rcases hf : w.fileExists path with _ | _
    · simp [check_typescript_dependencies, hf] at hr
    · rcases hp : w.npm with ⟨ec, out⟩ | _ | _ | e
      · by_cases ho : out = ""
        · simp [check_typescript_dependencies, hf, hp, ho] at hr
          subst hr
          simp
        · rcases hq : w.parseNpm out with items | _ | e
          · simp [check_typescript_dependencies, hf, hp, ho, hq] at hr
            subst hr
            refine ⟨by simp, by simp, ?_⟩
            rcases items with _ | ⟨i, is⟩ <;> simp
          · simp [check_typescript_dependencies, hf, hp, ho, hq] at hr
          · simp [check_typescript_dependencies, hf, hp, ho, hq] at hr
      · simp [check_typescript_dependencies, hf, hp] at hr
      · simp [check_typescript_dependencies, hf, hp] at hr
      · simp [check_typescript_dependencies, hf, hp] at hr

/-- Witness for C10: a concrete run with no outdated packages. -/
theorem dep_checker_report_invariants_witness :
    ({ dependencies := ([] : List PyDepEntry), outdated := [], upgrades := [],
       source := "pyproject.toml",
       message := some "All dependencies are up to date!" } : PyReport).dependencies.length =
      ({ dependencies := ([] : List PyDepEntry), outdated := [], upgrades := [],
         source := "pyproject.toml",
         message := some "All dependencies are up to date!" } : PyReport).outdated.length ∧
    ({ dependencies := ([] : List PyDepEntry), outdated := [], upgrades := [],
       source := "pyproject.toml",
       message := some "All dependencies are up to date!" } : PyReport).upgrades.length =
      ({ dependencies := ([] : List PyDepEntry), outdated := [], upgrades := [],
         source := "pyproject.toml",
         message := some "All dependencies are up to date!" } : PyReport).outdated.length ∧
    (({ dependencies := ([] : List PyDepEntry), outdated := [], upgrades := [],
        source := "pyproject.toml",
        message := some "All dependencies are up to date!" } : PyReport).message =
        some "All dependencies are up to date!" ↔
      ({ dependencies := ([] : List PyDepEntry), outdated := [], upgrades := [],
         source := "pyproject.toml",
         message := some "All dependencies are up to date!" } : PyReport).outdated = []) :=
  dep_checker_report_invariants.1 ⟨fun _ => true, .ok "[]", fun _ => .ok []⟩
    "requirements.txt" true
    { dependencies := [], outdated := [], upgrades := [], source := "pyproject.toml",
      message := some "All dependencies are up to date!" } rfl

/-- C6: with `package.json` present, the npm tool exiting non-zero but
emitting nonempty stdout that parses to exactly one outdated package with
all three version fields, `check_typescript_dependencies` treats the exit
code as non-fatal and returns one dependency entry, one `outdated` name
and the one upgrade command `npm install <name>@<latest>`. -/
theorem check_ts_single_outdated_contract (w : NpmWorld) (path : String)
    (ec : Int) (out name cur want lat : String) (info : NpmPkgInfo)
    (hf : w.fileExists path = true) (_hec : ec ≠ 0) (hn : w.npm = .ran ec out)
    (ho : out ≠ "") (hq : w.parseNpm out = .ok [(name, info)])
    (hc : info.current = some cur) (hw : info.wanted = some want)
    (hl : info.latest = some lat) :
    check_typescript_dependencies w path =
      (.ok
        { dependencies := [{ name := name, current := cur, wanted := want, latest := lat }]
          outdated := [name]
          upgrades := ["npm install " ++ name ++ "@" ++ lat]
          source := path
          message := none }, 1) := by
  simp [check_typescript_dependencies, hf, hn, ho, hq, hc, hw, hl]

/-- Witness for C6 at a concrete world with one outdated package. -/
theorem check_ts_single_outdated_contract_witness :
    check_typescript_dependencies
        ⟨fun _ => true, .ran 1 "x",
          fun _ => .ok [("left-pad", ⟨some "1.0.0", some "1.1.0", some "2.0.0"⟩)]⟩
        "package.json" =
      (.ok
        { dependencies :=
            [{ name := "left-pad", current := "1.0.0", wanted := "1.1.0", latest := "2.0.0" }]
          outdated := ["left-pad"]
          upgrades := ["npm install " ++ "left-pad" ++ "@" ++ "2.0.0"]
          source := "package.json"
          message := none }, 1) :=
  check_ts_single_outdated_contract
    ⟨fun _ => true, .ran 1 "x",
      fun _ => .ok [("left-pad", ⟨some "1.0.0", some "1.1.0", some "2.0.0"⟩)]⟩
    "package.json" 1 "x" "left-pad" "1.0.0" "1.1.0" "2.0.0"
    ⟨some "1.0.0", some "1.1.0", some "2.0.0"⟩
    rfl (by decide) rfl (by decide) rfl rfl rfl rfl

/-- C7 counterexample: with `package.json` present and npm completing with
empty stdout, the checker returns a success-shaped report (no `error`
field), not an error-shaped result as the claim states. -/
theorem check_ts_empty_stdout_success_shape :
    check_typescript_dependencies ⟨fun _ => true, .ran 0 "", fun _ => .decodeError⟩
        "package.json" =
      (.ok
        { dependencies := [], outdated := [], upgrades := [], source := "package.json",
          message := some "All dependencies are up to date!" }, 1) ∧
    tsIsError
      (check_typescript_dependencies ⟨fun _ => true, .ran 0 "", fun _ => .decodeError⟩
        "package.json").1 = false :=
  ⟨rfl, rfl⟩

/-- C7 amended: when the npm tool cannot be located or its nonempty output
is malformed, the checker returns an error-shaped result; empty or absent
stdout instead yields a non-error report with empty lists and the
"All dependencies are up to date!" message. -/
theorem check_ts_failure_modes_contract (w : NpmWorld) (path : String) :
    (w.fileExists path = true → w.npm = .fileNotFound →
      check_typescript_dependencies w path =
        (.error "npm is not installed or not in PATH", 1)) ∧
    (∀ (ec : Int) (out : String), w.fileExists path = true → w.npm = .ran ec out →
      out ≠ "" → w.parseNpm out = .decodeError →
      check_typescript_dependencies w path =
        (.error "Failed to parse npm outdated output", 1)) ∧
    (∀ ec : Int, w.fileExists path = true → w.npm = .ran ec "" →
      check_typescript_dependencies w path =
        (.ok
          { dependencies := [], outdated := [], upgrades := [], source := path,
            message := some "All dependencies are up to date!" }, 1) ∧
      tsIsError (check_typescript_dependencies w path).1 = false) := by
  refine ⟨?_, ?_, ?_⟩
  · intro hf hn
    simp [check_typescript_dependencies, hf, hn]
  · intro ec out hf hn ho hq
    simp [check_typescript_dependencies, hf, hn, ho, hq]
  · intro ec hf hn
    have h1 : check_typescript_dependencies w path =
        (.ok
          { dependencies := [], outdated := [], upgrades := [], source := path,
            message := some "All dependencies are up to date!" }, 1) := by
      simp [check_typescript_dependencies, hf, hn]
    exact ⟨h1, by rw [h1]; rfl⟩

/-- Witness for amended C7: npm missing from PATH at a concrete world. -/
theorem check_ts_failure_modes_contract_witness :
    check_typescript_dependencies
        ⟨fun _ => true, .fileNotFound, fun _ => .decodeError⟩ "package.json" =
      (.error "npm is not installed or not in PATH", 1) :=
  (check_ts_failure_modes_contract
    ⟨fun _ => true, .fileNotFound, fun _ => .decodeError⟩ "package.json").1 rfl rfl

/-- C1 counterexample: with requirements.txt present and the pip
subprocess timing out, `check_python_dependencies` returns an error whose
message mentions neither checked path, so this failure mode carries no
correlating context (no URL, query, or path). -/
theorem python_checker_error_lacks_path_context :
    check_python_dependencies
        ⟨fun p => p == "requirements.txt", .timeoutExpired, fun _ => .error ""⟩
        "requirements.txt" true =
      (.error "Command timed out after 30 seconds", 1) ∧
    strContains "Command timed out after 30 seconds" "requirements.txt" = false ∧
    strContains "Command timed out after 30 seconds" "pyproject.toml" = false :=
  ⟨rfl, rfl, rfl⟩

/-- C1 amended: every adapter is total (no exception escapes the
embedding) and converts each failure mode into a structured result with a
fixed human-readable message; the HTTP, search and fetch adapters echo the
original URL or query in the result, while the dependency checkers name
the checked path(s) only in their missing-file errors — their subprocess,
timeout and parse failures carry the message without the path. -/
theorem adapters_error_shape_contract :
    (∀ (a : HttpArgs) (w : RequestKwargs → HttpOutcome),
      w (buildKwargs a) = .timeout →
      (http_request a w).success = false ∧ (http_request a w).status_code = 0 ∧
      (http_request a w).content =
        .text ("Request timed out after " ++ toString a.timeout ++ " seconds") ∧
      (http_request a w).url = a.url) ∧
    (∀ (a : HttpArgs) (w : RequestKwargs → HttpOutcome) (e : String),
      w (buildKwargs a) = .requestError e →
      (http_request a w).success = false ∧
      (http_request a w).content = .text ("Request error: " ++ e) ∧
      (http_request a w).url = a.url) ∧
    (∀ (a : HttpArgs) (w : RequestKwargs → HttpOutcome) (e : String),
      w (buildKwargs a) = .otherError e →
      (http_request a w).success = false ∧
      (http_request a w).content = .text ("Error making request: " ++ e) ∧
      (http_request a w).url = a.url) ∧
    (∀ (query : String) (mr : Nat) (t : Topic) (irc : Bool),
      web_search none query mr t irc =
        (.error "TAVILY_API_KEY environment variable is not set. Web search is unavailable."
          query, 0)) ∧
    (∀ (c : SearchCall → SearchOutcome) (query : String) (mr : Nat) (t : Topic)
        (irc : Bool) (e : String),
      c ⟨query, mr, irc, t⟩ = .exn e →
      web_search (some c) query mr t irc = (.error ("Web search error: " ++ e) query, 1)) ∧
    (∀ (get : String → Nat → List (String × String) → FetchOutcome)
        (hem : HttpResponse → String) (md : String → String) (url : String)
        (t : Nat) (e : String),
      get url t fetchHeaders = .exn e →
      fetch_url get hem md url t = .error ("Fetch URL error: " ++ e) url) ∧
    (∀ (get : String → Nat → List (String × String) → FetchOutcome)
        (hem : HttpResponse → String) (md : String → String) (url : String)
        (t : Nat) (r : HttpResponse),
      get url t fetchHeaders = .resp r → 400 ≤ r.status_code → r.status_code < 600 →
      fetch_url get hem md url t = .error ("Fetch URL error: " ++ hem r) url) ∧
    (∀ (w : PyWorld) (path : String) (flag : Bool),
      resolveSource w.fileExists path flag = none →
      check_python_dependencies w path flag =
        (.error ("No dependency file found. Checked: " ++ path ++ ", pyproject.toml"),
          0)) ∧
    (∀ (w : PyWorld) (path : String) (flag : Bool) (src stk : String),
      resolveSource w.fileExists path flag = some src →
      w.pip = .calledProcessError stk →
      check_python_dependencies w path flag =
        (.error ("Failed to check dependencies: " ++ stk), 1)) ∧
    (∀ (w : PyWorld) (path : String) (flag : Bool) (src : String),
      resolveSource w.fileExists path flag = some src → w.pip = .timeoutExpired →
      check_python_dependencies w path flag =
        (.error "Command timed out after 30 seconds", 1)) ∧
    (∀ (w : PyWorld) (path : String) (flag : Bool) (src e : String),
      resolveSource w.fileExists path flag = some src → w.pip = .exn e →
      check_python_dependencies w path flag =
        (.error ("Error checking Python dependencies: " ++ e), 1)) ∧
    (∀ (w : PyWorld) (path : String) (flag : Bool) (src out e : String),
      resolveSource w.fileExists path flag = some src → w.pip = .ok out →
      w.parsePip out = .error e →
      check_python_dependencies w path flag =
        (.error ("Error checking Python dependencies: " ++ e), 1)) ∧
    (∀ (w : NpmWorld) (path : String),
      w.fileExists path = false →
      check_typescript_dependencies w path =
        (.error ("No package.json found at: " ++ path), 0)) ∧
    (∀ (w : NpmWorld) (path : String),
      w.fileExists path = true → w.npm = .fileNotFound →
      check_typescript_dependencies w path =
        (.error "npm is not installed or not in PATH", 1)) ∧
    (∀ (w : NpmWorld) (path : String),
      w.fileExists path = true → w.npm = .timeoutExpired →
      check_typescript_dependencies w path =
        (.error "npm command timed out after 60 seconds", 1)) ∧
    (∀ (w : NpmWorld) (path e : String),
      w.fileExists path = true → w.npm = .exn e →
      check_typescript_dependencies w path =
        (.error ("Error checking TypeScript dependencies: " ++ e), 1)) ∧
    (∀ (w : NpmWorld) (path : String) (ec : Int) (out : String),
      w.fileExists path = true → w.npm = .ran ec out → out ≠ "" →
      w.parseNpm out = .decodeError →
      check_typescript_dependencies w path =
        (.error "Failed to parse npm outdated output", 1)) ∧
    (∀ (w : NpmWorld) (path : String) (ec : Int) (out e : String),
      w.fileExists path = true → w.npm = .ran ec out → out ≠ "" →
      w.parseNpm out = .exn e →
      check_typescript_dependencies w path =
        (.error ("Error checking TypeScript dependencies: " ++ e), 1)) := by
  refine ⟨?_, ?_, ?_, ?_, ?_, ?_, ?_, ?_, ?_, ?_, ?_, ?_, ?_, ?_, ?_, ?_, ?_, ?_⟩
  · intro a w h
    simp [http_request, h]
  · intro a w e h
    simp [http_request, h]
  · intro a w e h
    simp [http_request, h]
  · intro query mr t irc
    rfl
  · intro c query mr t irc e h
    simp [web_search, h]
  · intro get hem md url t e h
    simp [fetch_url, h]
  · intro get hem md url t r h h4 h6
    have hc : 400 ≤ r.status_code ∧ r.status_code < 600 := ⟨h4, h6⟩
    simp [fetch_url, h, hc]
  · intro w path flag h
    simp [check_python_dependencies, h]
  · intro w path flag src stk hs hp
    simp [check_python_dependencies, hs, hp]
  · intro w path flag src hs hp
    simp [check_python_dependencies, hs, hp]
  · intro w path flag src e hs hp
    simp [check_python_dependencies, hs, hp]
  · intro w path flag src out e hs hp hq
    simp [check_python_dependencies, hs, hp, hq]
  · intro w path h
    simp [check_typescript_dependencies, h]
  · intro w path hf hn
    simp [check_typescript_dependencies, hf, hn]
  · intro w path hf hn
    simp [check_typescript_dependencies, hf, hn]
  · intro w path e hf hn
    simp [check_typescript_dependencies, hf, hn]
  · intro w path ec out hf hn ho hq
    simp [check_typescript_dependencies, hf, hn, ho, hq]
  · intro w path ec out e hf hn ho hq
    simp [check_typescript_dependencies, hf, hn, ho, hq]

/-- Witness for amended C1: a concrete timed-out HTTP request echoes the
original URL in its failure result. -/
theorem adapters_error_shape_contract_witness :
    (http_request ⟨"http://z", "post", none, none, none, 10⟩ (fun _ => .timeout)).success =
      false ∧
    (http_request ⟨"http://z", "post", none, none, none, 10⟩
      (fun _ => .timeout)).status_code = 0 ∧
    (http_request ⟨"http://z", "post", none, none, none, 10⟩ (fun _ => .timeout)).content =
      .text ("Request timed out after " ++ toString 10 ++ " seconds") ∧
    (http_request ⟨"http://z", "post", none, none, none, 10⟩ (fun _ => .timeout)).url =
      "http://z" :=
  adapters_error_shape_contract.1 ⟨"http://z", "post", none, none, none, 10⟩
    (fun _ => .timeout) rfl
